import Mathlib

/-!
Verification development for the emergency-healthcare RAG repository.

The repository has three source files:
* `model.py` — the Prediction Service: `predict(statement)` retrieves context
  from a vector store, invokes a generative model, and parses its JSON answer
  into a pair `(statement_is_true, statement_topic)`.
* `1_indexing.py` and `2_chunking_embedding_ingestion.py` — two near-duplicate
  one-shot indexing scripts that rebuild a persistent vector index from
  `data/topics/<folder>/*.md` plus a topic map `data/topics.json`.

We embed the repository's own logic shallowly.  External libraries
(`json.loads`, the text splitter, the embedding model, the vector store and
the LLM client) are modelled as explicit parameters, except that a concrete
executable model `jsonLoads` of Python's `json.loads` (restricted to the
fragment exercised here: one top-level object with string keys and
null/bool/integer/string values, or a top-level scalar; integer numerals
only, basic string escapes, strict trailing-input check) is provided so that
theorems can be evaluated on concrete model responses.
-/

/-- A JSON value as produced by Python's `json.loads` (integer numerals only;
the repository's prompt asks the model for integer fields). -/
inductive JValue where
  | jnull
  | jbool (b : Bool)
  | jnum (n : Int)
  | jstr (s : String)
  | jarr (elems : List JValue)
  | jobj (fields : List (String × JValue))

/-- The Python exception classes that can arise inside `predict`'s parse step:
`json.JSONDecodeError` (from `json.loads`), `KeyError` (missing dict key),
`TypeError` (subscripting a non-dict, or `int()` of `None`/list/dict), and
`ValueError` (`int()` of a non-numeric string).  `json.JSONDecodeError` is a
subclass of `ValueError` in Python, but `except` clauses match exact classes
by `isinstance`, so a plain `ValueError` is NOT matched by a handler listing
`json.JSONDecodeError`. -/
inductive PyErr where
  | jsonDecodeError
  | keyError
  | typeError
  | valueError
deriving DecidableEq

/-- Which exceptions the `except (json.JSONDecodeError, KeyError, TypeError)`
clause at `model.py:117` catches.  A plain `ValueError` is not in the tuple. -/
def caught : PyErr → Bool
  | .jsonDecodeError => true
  | .keyError => true
  | .typeError => true
  | .valueError => false

/-- Whitespace stripped by Python's `int(str)` coercion. -/
def isPySpace (c : Char) : Bool :=
  c = ' ' || c = '\t' || c = '\n' || c = '\r' || c = '\x0b' || c = '\x0c'

/-- Accumulate a decimal numeral; `none` on any non-digit. -/
def digitsVal (acc : Nat) : List Char → Option Nat
  | [] => some acc
  | c :: cs => if c.isDigit then digitsVal (10 * acc + (c.toNat - 48)) cs else none

/-- Python's `int(s)` on a string: strip surrounding whitespace, optional
sign, then a nonempty run of decimal digits; anything else raises
`ValueError` (modelled as `none`).  (Underscore digit grouping is not
modelled; no input in this development uses it.) -/
def pyStrToInt (s : String) : Option Int :=
  let cs := ((s.data.dropWhile isPySpace).reverse.dropWhile isPySpace).reverse
  match cs with
  | '-' :: rest => if rest.isEmpty then none else (digitsVal 0 rest).map (fun n => -(n : Int))
  | '+' :: rest => if rest.isEmpty then none else (digitsVal 0 rest).map (fun n => (n : Int))
  | rest => if rest.isEmpty then none else (digitsVal 0 rest).map (fun n => (n : Int))

/-- Python's `int(v)` for a JSON-decoded value `v`:
integers pass through, booleans coerce (`int(True) = 1`), numeric strings
parse (else `ValueError`), and `None`/lists/dicts raise `TypeError`. -/
def pyInt : JValue → Except PyErr Int
  | .jnum n => .ok n
  | .jbool b => .ok (if b then 1 else 0)
  | .jstr s =>
    match pyStrToInt s with
    | some n => .ok n
    | none => .error .valueError
  | .jnull => .error .typeError
  | .jarr _ => .error .typeError
  | .jobj _ => .error .typeError

/-- Dictionary lookup with Python's last-key-wins semantics for duplicate
JSON object keys (`json.loads` builds the dict by successive assignment). -/
def lastLookup (fields : List (String × JValue)) (k : String) : Option JValue :=
  List.lookup k fields.reverse

/-- Python's `result_json["key"]`: a `dict` either yields the value or raises
`KeyError`; subscripting any non-dict JSON value with a string key raises
`TypeError`. -/
def dictGet (j : JValue) (k : String) : Except PyErr JValue :=
  match j with
  | .jobj fields =>
    match lastLookup fields k with
    | some v => .ok v
    | none => .error .keyError
  | _ => .error .typeError

/-- Python's `s.startswith(pre)`. -/
def pyStartsWith (s pre : String) : Bool := pre.data.isPrefixOf s.data

/-- Python's `s.endswith(suf)`. -/
def pyEndsWith (s suf : String) : Bool := suf.data.isSuffixOf s.data

/-- Lines 108-109 of `model.py`: `if response_str.startswith("```json"): response_str =
response_str[7:-4]`.  The Python slice `s[7:-4]` keeps the characters with
index in `[7, len(s) - 4)` (empty when `len(s) < 12`), i.e. it drops the
first 7 and the last 4 characters. -/
def stripFence (response_str : String) : String :=
  if pyStartsWith response_str "```json" then
    String.mk ((response_str.data.take (response_str.data.length - 4)).drop 7)
  else response_str

/-- Lines 112-115 of `model.py`: extract and coerce the two fields, in source order
(`statement_is_true` is subscripted and coerced first); the first exception
raised aborts the rest of the `try` body. -/
def extractPair (result_json : JValue) : Except PyErr (Int × Int) :=
  match dictGet result_json "statement_is_true" with
  | .error e => .error e
  | .ok v1 =>
    match pyInt v1 with
    | .error e => .error e
    | .ok statement_is_true =>
      match dictGet result_json "statement_topic" with
      | .error e => .error e
      | .ok v2 =>
        match pyInt v2 with
        | .error e => .error e
        | .ok statement_topic => .ok (statement_is_true, statement_topic)

/-- The body of the `try` block at `model.py:107-115`, parameterised by the
`json.loads` implementation `jsonF`: strip the fence, decode, extract, coerce. -/
def parsePipeline (jsonF : String → Except PyErr JValue) (response_str : String) :
    Except PyErr (Int × Int) :=
  match jsonF (stripFence response_str) with
  | .error e => .error e
  | .ok result_json => extractPair result_json

/-- The whole parse step of `predict` (`model.py:107-120`): the `try` body,
with the `except (json.JSONDecodeError, KeyError, TypeError)` handler
returning the safe default `(0, 0)`.  An exception not in the tuple
(`Except.error` with `caught e = false`) propagates to the caller. -/
def predictParse (jsonF : String → Except PyErr JValue) (response_str : String) :
    Except PyErr (Int × Int) :=
  match parsePipeline jsonF response_str with
  | .ok p => .ok p
  | .error e => if caught e then .ok (0, 0) else .error e

/-! ### A concrete executable model of `json.loads` -/

/-- JSON insignificant whitespace. -/
def isJsonWs (c : Char) : Bool := c = ' ' || c = '\t' || c = '\n' || c = '\r'

def skipWs : List Char → List Char
  | [] => []
  | c :: cs => if isJsonWs c then skipWs cs else c :: cs

/-- The opening brace character, `Char.ofNat 123`. -/
def obrace : Char := Char.ofNat 123

/-- The closing brace character, `Char.ofNat 125`. -/
def cbrace : Char := Char.ofNat 125

/-- JSON string escapes (the `\uXXXX` form is not modelled): `\n`, `\t`,
`\r`, `\b`, `\f` map to their control characters, and a quote, backslash or
slash escapes to itself. -/
def escChar (e : Char) : Option Char :=
  if e = 'n' then some '\n'
  else if e = 't' then some '\t'
  else if e = 'r' then some '\r'
  else if e = 'b' then some (Char.ofNat 8)
  else if e = 'f' then some (Char.ofNat 12)
  else if e = '"' then some e
  else if e = '\\' then some e
  else if e = '/' then some e
  else none

/-- Parse the body of a JSON string after the opening quote; returns the
decoded characters and the input remaining after the closing quote. -/
def parseStringBody : List Char → Option (List Char × List Char)
  | [] => none
  | '\\' :: e :: rest =>
    match escChar e with
    | some c => (parseStringBody rest).map (fun p => (c :: p.1, p.2))
    | none => none
  | c :: rest =>
    if c = '"' then some ([], rest)
    else (parseStringBody rest).map (fun p => (c :: p.1, p.2))

def takeDigits : List Char → List Char × List Char
  | [] => ([], [])
  | c :: cs =>
    if c.isDigit then
      let p := takeDigits cs
      (c :: p.1, p.2)
    else ([], c :: cs)

def digitsToNat (ds : List Char) : Nat := ds.foldl (fun a c => 10 * a + (c.toNat - 48)) 0

/-- Parse one scalar JSON value (null, true, false, integer numeral, or
string) at the head of the input. -/
def parseScalar : List Char → Option (JValue × List Char)
  | [] => none
  | c :: rest =>
    if c = '"' then (parseStringBody rest).map (fun p => (JValue.jstr (String.mk p.1), p.2))
    else if c = 'n' then
      if ([ 'u', 'l', 'l' ] : List Char).isPrefixOf rest then some (JValue.jnull, rest.drop 3)
      else none
    else if c = 't' then
      if ([ 'r', 'u', 'e' ] : List Char).isPrefixOf rest then some (JValue.jbool true, rest.drop 3)
      else none
    else if c = 'f' then
      if ([ 'a', 'l', 's', 'e' ] : List Char).isPrefixOf rest then some (JValue.jbool false, rest.drop 4)
      else none
    else if c = '-' then
      match takeDigits rest with
      | ([], _) => none
      | (ds, r) => some (JValue.jnum (-(digitsToNat ds : Int)), r)
    else if c.isDigit then
      let p := takeDigits (c :: rest)
      some (JValue.jnum (digitsToNat p.1), p.2)
    else none

/-- Parse the members of a JSON object after the opening brace (at least one
member); fuel bounds the recursion by the input length. -/
def parseMembersLoop : Nat → List Char → Option (List (String × JValue) × List Char)
  | 0, _ => none
  | fuel + 1, cs =>
    match skipWs cs with
    | [] => none
    | q :: rest =>
      if q = '"' then
        match parseStringBody rest with
        | none => none
        | some (key, r1) =>
          match skipWs r1 with
          | ':' :: r2 =>
            match parseScalar (skipWs r2) with
            | none => none
            | some (v, r3) =>
              match skipWs r3 with
              | d :: r4 =>
                if d = ',' then
                  match parseMembersLoop fuel r4 with
                  | some (ms, r5) => some ((String.mk key, v) :: ms, r5)
                  | none => none
                else if d = cbrace then some ([(String.mk key, v)], r4)
                else none
              | [] => none
          | _ => none
      else none

/-- Concrete model of Python's `json.loads` on the fragment this system
exchanges with the generative model: a top-level object with scalar values,
or a top-level scalar.  Malformed input (including trailing garbage) is a
`json.JSONDecodeError`. -/
def jsonLoads (s : String) : Except PyErr JValue :=
  match skipWs s.data with
  | [] => .error .jsonDecodeError
  | c :: rest =>
    if c = obrace then
      match skipWs rest with
      | [] => .error .jsonDecodeError
      | d :: r2 =>
        if d = cbrace then
          if (skipWs r2).isEmpty then .ok (JValue.jobj []) else .error .jsonDecodeError
        else
          match parseMembersLoop (rest.length + 1) rest with
          | some (fields, r) =>
            if (skipWs r).isEmpty then .ok (JValue.jobj fields) else .error .jsonDecodeError
          | none => .error .jsonDecodeError
    else
      match parseScalar (c :: rest) with
      | some (v, r) => if (skipWs r).isEmpty then .ok v else .error .jsonDecodeError
      | none => .error .jsonDecodeError

/-! ### The retrieval and generation stages of `predict` (`model.py:76-120`) -/

/-- A retrieved document as the Prediction Service sees it: only its
`page_content` is used (`model.py:96`). -/
structure Doc where
  page_content : String

/-- The arguments `predict` passes to `vector_store.as_retriever`
(`model.py:89-92`): `search_type="mmr"`, `search_kwargs={'k': 5,
'fetch_k': 20}`. -/
structure RetrieverConfig where
  search_type : String
  k : Nat
  fetch_k : Nat

/-- The retriever configuration hard-coded in `predict` (`model.py:89-92`). -/
def predictRetriever : RetrieverConfig :=
  { search_type := "mmr", k := 5, fetch_k := 20 }

/-- Python's `sep.join(parts)`. -/
def pyJoin (sep : String) : List String → String
  | [] => ""
  | [x] => x
  | x :: y :: rest => x ++ sep ++ pyJoin sep (y :: rest)

/-- The AUGMENT step (`model.py:93-96`): invoke the retriever built with
`predictRetriever` on the statement and join the retrieved documents'
contents with a blank line, in retrieval order.  The vector store itself is
external and passed as a parameter. -/
def predictContext (vectorStore : RetrieverConfig → String → List Doc)
    (statement : String) : String :=
  pyJoin "\n\n" ((vectorStore predictRetriever statement).map Doc.page_content)

/-- The whole of `predict` (`model.py:76-120`), parameterised by the external
services: `jsonF` models `json.loads`; `vectorStore` the Chroma retriever;
`promptOf` the prompt template application `prompt_template.format(context=…,
statement=…, topics_list=…)` (the rendered topic list is a per-process
constant folded into `promptOf`); `llm` the generative model invocation.
A normal return is `Except.ok`; an uncaught exception is `Except.error`. -/
def predict (jsonF : String → Except PyErr JValue)
    (vectorStore : RetrieverConfig → String → List Doc)
    (promptOf : String → String → String) (llm : String → String)
    (statement : String) : Except PyErr (Int × Int) :=
  let context := predictContext vectorStore statement
  let final_prompt := promptOf context statement
  let response_str := llm final_prompt
  predictParse jsonF response_str

/-! ### The indexing scripts (`1_indexing.py` and
`2_chunking_embedding_ingestion.py`)

Both scripts are embedded separately, each from its own file, so that their
equivalence is a theorem rather than an assumption.  The external text
splitter (`RecursiveCharacterTextSplitter(chunk_size=1000,
chunk_overlap=200).split_text`) is a parameter `splitter`; the filesystem
is an explicit input (`IndexInput`). -/

/-- One chunk record written to the index: `page_content` plus the metadata
dict `{"source_file": …, "topic_name": …, "topic_id": …}`
(`1_indexing.py:70-79`, `2_chunking_embedding_ingestion.py:76-85`). -/
structure Chunk where
  page_content : String
  source_file : String
  topic_name : String
  topic_id : Int
deriving DecidableEq

/-- A file inside a topic folder.  `content = none` models a file whose
`open`/`read` raises, which both scripts catch per file, log, and skip. -/
structure MdFile where
  name : String
  content : Option String
deriving DecidableEq

/-- An immediate subdirectory of `data/topics/`, with its directory listing. -/
structure Folder where
  name : String
  files : List MdFile
deriving DecidableEq

/-- The JSON-decoded `data/topics.json`: folder name to integer topic ID.
Keys of a JSON-decoded Python dict are distinct. -/
abbrev TopicMap := List (String × Int)

/-- The input state of one indexing run: the prior index at
`DATABASE_LOCATION` (if any), the topic map (if `data/topics.json` exists),
and the topic folders found on disk. -/
structure IndexInput where
  priorDb : Option (List Chunk)
  topicsJson : Option TopicMap
  folders : List Folder

/-- How an indexing run terminates: `exit()` at the missing-topic-map guard,
`exit()` at the empty-corpus guard, or normal completion. -/
inductive RunOutcome where
  | missingTopicMap
  | emptyCorpus
  | completed
deriving DecidableEq

/-- The observable result of one indexing run: the state of the storage
location afterwards (`none` = no index present) and the termination mode. -/
structure RunResult where
  dbState : Option (List Chunk)
  outcome : RunOutcome
deriving DecidableEq

/-- The body of the folder loop of `1_indexing.py:48-83` for one folder:
skip folders not in the topic map (warning only); otherwise take the `.md`
files, and for each readable file split it and emit one `Chunk` per piece
with the folder's name and resolved topic ID; a per-file failure is caught
and contributes nothing. -/
def processFolder1 (splitter : String → List String) (topic_map : TopicMap)
    (folder : Folder) : List Chunk :=
  match List.lookup folder.name topic_map with
  | none => []
  | some topic_id =>
    let md_files_in_folder := folder.files.filter (fun f => pyEndsWith f.name ".md")
    md_files_in_folder.flatMap (fun md_file =>
      match md_file.content with
      | none => []
      | some content =>
        (splitter content).map (fun chunk =>
          { page_content := chunk, source_file := md_file.name,
            topic_name := folder.name, topic_id := topic_id }))

/-- The collection `all_docs` after the folder loop of `1_indexing.py:42-83`. -/
def buildDocs1 (splitter : String → List String) (topic_map : TopicMap)
    (folders : List Folder) : List Chunk :=
  folders.flatMap (processFolder1 splitter topic_map)

/-- The script `1_indexing.py` as a state transformer: lines 27-29 remove any existing
index at the storage location before anything else; lines 33-38 load the
topic map or `exit()`; lines 42-91 build `all_docs` and `exit()` if it is
empty; lines 95-100 write the new index. -/
def run1 (splitter : String → List String) (inp : IndexInput) : RunResult :=
  match inp.topicsJson with
  | none => { dbState := none, outcome := .missingTopicMap }
  | some topic_map =>
    let all_docs := buildDocs1 splitter topic_map inp.folders
    if all_docs.isEmpty then { dbState := none, outcome := .emptyCorpus }
    else { dbState := some all_docs, outcome := .completed }

/-- The body of the folder loop of `2_chunking_embedding_ingestion.py:53-89`
for one folder (identical logic to `processFolder1`, embedded from its own
source). -/
def processFolder2 (splitter : String → List String) (topic_map : TopicMap)
    (folder : Folder) : List Chunk :=
  match List.lookup folder.name topic_map with
  | none => []
  | some topic_id =>
    let md_files_in_folder := folder.files.filter (fun f => pyEndsWith f.name ".md")
    md_files_in_folder.flatMap (fun md_file =>
      match md_file.content with
      | none => []
      | some content =>
        (splitter content).map (fun chunk =>
          { page_content := chunk, source_file := md_file.name,
            topic_name := folder.name, topic_id := topic_id }))

/-- The collection `all_docs` after the folder loop of `2_chunking_embedding_ingestion.py:47-89`. -/
def buildDocs2 (splitter : String → List String) (topic_map : TopicMap)
    (folders : List Folder) : List Chunk :=
  folders.flatMap (processFolder2 splitter topic_map)

/-- The script `2_chunking_embedding_ingestion.py` as a state transformer: lines 32-34
remove any existing index; lines 38-43 load the topic map or `exit()`;
lines 47-95 build `all_docs` and `exit()` if it is empty; lines 101-106
write the new index. -/
def run2 (splitter : String → List String) (inp : IndexInput) : RunResult :=
  match inp.topicsJson with
  | none => { dbState := none, outcome := .missingTopicMap }
  | some topic_map =>
    let all_docs := buildDocs2 splitter topic_map inp.folders
    if all_docs.isEmpty then { dbState := none, outcome := .emptyCorpus }
    else { dbState := some all_docs, outcome := .completed }

/-! ### Helper lemmas about the parse pipeline -/

/-- Inversion for a successful `extractPair`: each returned component is the
integer coercion of the corresponding extracted field. -/
theorem extractPair_ok_inv (j : JValue) (p : Int × Int)
    (h : extractPair j = Except.ok p) :
    (dictGet j "statement_is_true").bind pyInt = Except.ok p.1 ∧
    (dictGet j "statement_topic").bind pyInt = Except.ok p.2 := by
  unfold extractPair at h
  cases h1 : dictGet j "statement_is_true" with
  | error e => rw [h1] at h; exact absurd h (by simp)
  | ok v1 =>
    rw [h1] at h; simp only [] at h
    cases h2 : pyInt v1 with
    | error e => rw [h2] at h; exact absurd h (by simp)
    | ok n1 =>
      rw [h2] at h; simp only [] at h
      cases h3 : dictGet j "statement_topic" with
      | error e => rw [h3] at h; exact absurd h (by simp)
      | ok v2 =>
        rw [h3] at h; simp only [] at h
        cases h4 : pyInt v2 with
        | error e => rw [h4] at h; exact absurd h (by simp)
        | ok n2 =>
          rw [h4] at h
          simp only [Except.ok.injEq] at h
          cases h
          exact ⟨by simp [Except.bind, h1, h2], by simp [Except.bind, h3, h4]⟩

/-- Inversion for a successful pass through the `try` body: the returned
pair is exactly the pair of coercions of the two extracted fields. -/
theorem parsePipeline_ok_inv (jsonF : String → Except PyErr JValue)
    (s : String) (p : Int × Int) (h : parsePipeline jsonF s = Except.ok p) :
    ((jsonF (stripFence s)).bind (fun j => dictGet j "statement_is_true")).bind pyInt =
      Except.ok p.1 ∧
    ((jsonF (stripFence s)).bind (fun j => dictGet j "statement_topic")).bind pyInt =
      Except.ok p.2 := by
  unfold parsePipeline at h
  cases hj : jsonF (stripFence s) with
  | error e => rw [hj] at h; exact absurd h (by simp)
  | ok j =>
    rw [hj] at h
    have hp := extractPair_ok_inv j p h
    exact ⟨by simpa [Except.bind, hj] using hp.1, by simpa [Except.bind, hj] using hp.2⟩

/-- A successful `try` body is returned unchanged by the parse step. -/
theorem predictParse_of_pipeline_ok (jsonF : String → Except PyErr JValue)
    (s : String) (p : Int × Int) (h : parsePipeline jsonF s = Except.ok p) :
    predictParse jsonF s = Except.ok p := by
  simp [predictParse, h]

/-! ### Concrete model responses used in the claims -/

/-- A response whose `statement_is_true` value is a string that `int()`
cannot coerce: `int("yes")` raises `ValueError`. -/
def c1Response : String := "\x7b\"statement_is_true\": \"yes\", \"statement_topic\": 3\x7d"

/-- A response whose fields parse but whose `statement_is_true` is neither
0 nor 1. -/
def c3Response : String := "\x7b\"statement_is_true\": 7, \"statement_topic\": 3\x7d"

/-- A well-formed response used to instantiate the amended C3 theorem. -/
def c3wResponse : String := "\x7b\"statement_is_true\": 0, \"statement_topic\": 5\x7d"

/-- The spec's fence-wrapped example response. -/
def c5Response : String :=
  "```json\n\x7b\"statement_is_true\": 1, \"statement_topic\": 3\x7d\n```"

/-- A response whose `statement_topic` (999) is not a value of any entry of
the example topic maps used below. -/
def c9Response : String := "\x7b\"statement_is_true\": 1, \"statement_topic\": 999\x7d"

/-- A well-formed response used to instantiate the C9 theorem. -/
def c9wResponse : String := "\x7b\"statement_is_true\": 0, \"statement_topic\": 42\x7d"

/-- A response in which the first field extracts and coerces successfully
but the second key is missing. -/
def c10Response : String := "\x7b\"statement_is_true\": 1\x7d"

/-! ### Claims about the Prediction Service parse step -/

/-- C1: the claim states that on any of the three named parsing failures —
malformed JSON, missing keys, or non-coercible values — `predict` returns
`(0, 0)` and never raises past the parse boundary.  The code contradicts
this for the third named way: the `except` tuple at `model.py:117` lists
`(json.JSONDecodeError, KeyError, TypeError)` but `int()` of a non-numeric
*string* raises `ValueError`, which is none of these (and is not matched by
the `json.JSONDecodeError` entry, which is a subclass), so it propagates to
the caller.  This theorem evaluates the embedded `predict` at the failing
response `{"statement_is_true": "yes", "statement_topic": 3}` (via an `llm`
stub returning it) and shows the uncaught `ValueError`; the malformed-JSON
and missing-key paths, by contrast, do return `(0, 0)`. -/
theorem predict_noncoercible_value_raises :
    predict jsonLoads (fun _ _ => []) (fun _ _ => "") (fun _ => c1Response)
        "any statement" = Except.error PyErr.valueError ∧
    caught PyErr.valueError = false ∧
    predictParse jsonLoads "not json" = Except.ok (0, 0) ∧
    predictParse jsonLoads "\x7b\x7d" = Except.ok (0, 0) :=
  ⟨rfl, rfl, rfl, rfl⟩

/-- C3 (counterexample): the claim states that every prediction that does
not take the parse-failure default path returns a first component equal to
0 or 1.  On the response `{"statement_is_true": 7, "statement_topic": 3}`
the `try` body succeeds (no default path) and `predict` returns `(7, 3)`:
`model.py:112` performs `int(...)` with no 0/1 range check. -/
theorem predictParse_success_first_component_not_binary :
    parsePipeline jsonLoads c3Response = Except.ok (7, 3) ∧
    predictParse jsonLoads c3Response = Except.ok (7, 3) ∧
    ¬((7 : Int) = 0 ∨ (7 : Int) = 1) :=
  ⟨rfl, rfl, by decide⟩

/-- C3 (amended): for every prediction call that completes without taking
the parse-failure default path, the first component of the returned pair is
the integer coercion of the model-supplied `statement_is_true` value — the
code imposes no restriction of that integer to 0 or 1. -/
theorem predictParse_success_first_is_coercion :
    ∀ (jsonF : String → Except PyErr JValue) (s : String) (p : Int × Int),
      parsePipeline jsonF s = Except.ok p →
      predictParse jsonF s = Except.ok p ∧
      ((jsonF (stripFence s)).bind (fun j => dictGet j "statement_is_true")).bind
          pyInt = Except.ok p.1 := by
  intro jsonF s p h
  exact ⟨predictParse_of_pipeline_ok jsonF s p h, (parsePipeline_ok_inv jsonF s p h).1⟩

/-- Witness for the amended C3 theorem at the concrete response
`{"statement_is_true": 0, "statement_topic": 5}`. -/
theorem predictParse_success_first_is_coercion_witness :
    predictParse jsonLoads c3wResponse = Except.ok (0, 5) ∧
    ((jsonLoads (stripFence c3wResponse)).bind
        (fun j => dictGet j "statement_is_true")).bind pyInt =
      Except.ok (Prod.fst ((0 : Int), (5 : Int))) :=
  predictParse_success_first_is_coercion jsonLoads c3wResponse (0, 5) rfl

/-- C9: `predict` performs no validation of the parsed `statement_topic`
against the Topic Map.  The embedded `predict` (`model.py:76-120`) takes no
topic map at all — the map is only rendered into the prompt text — so the
second component of every successfully parsed result is exactly the integer
coercion of the model-supplied `statement_topic` value (first conjunct),
and on the response `{"statement_is_true": 1, "statement_topic": 999}` the
result is `(1, 999)` for *every* topic map none of whose entries has value
999 (second conjunct: the hypothesis on `topic_map` is never consulted by
the code, which is precisely the absence of validation). -/
theorem predictParse_topic_not_validated :
    (∀ (jsonF : String → Except PyErr JValue) (s : String) (p : Int × Int),
        parsePipeline jsonF s = Except.ok p →
        predictParse jsonF s = Except.ok p ∧
        ((jsonF (stripFence s)).bind (fun j => dictGet j "statement_topic")).bind
            pyInt = Except.ok p.2) ∧
    (∀ (topic_map : TopicMap), (∀ kv ∈ topic_map, kv.2 ≠ 999) →
        predict jsonLoads (fun _ _ => []) (fun _ _ => "") (fun _ => c9Response)
          "any statement" = Except.ok (1, 999)) := by
  constructor
  · intro jsonF s p h
    exact ⟨predictParse_of_pipeline_ok jsonF s p h, (parsePipeline_ok_inv jsonF s p h).2⟩
  · intro _ _
    rfl

/-- Witness for C9: both conjuncts applied at concrete inputs. -/
theorem predictParse_topic_not_validated_witness :
    predictParse jsonLoads c9wResponse = Except.ok (0, 42) ∧
    predict jsonLoads (fun _ _ => []) (fun _ _ => "") (fun _ => c9Response)
      "any statement" = Except.ok (1, 999) :=
  ⟨(predictParse_topic_not_validated.1 jsonLoads c9wResponse (0, 42) rfl).1,
    predictParse_topic_not_validated.2 [("Cardiology", 1)] (by decide)⟩

/-- C10: `predict` never mixes a parsed value with a default.  Whenever the
`try` body fails with one of the caught exception classes — at JSON
decoding, at either subscript, or at either `int()` coercion — the handler
at `model.py:117-120` returns the single literal pair `(0, 0)`, discarding
any value already extracted (first conjunct).  The remaining conjuncts show
this concretely on `{"statement_is_true": 1}`: the first field extracts and
coerces to 1, yet the missing second key makes the whole call return
`(0, 0)`. -/
theorem predictParse_default_is_all_or_nothing :
    (∀ (jsonF : String → Except PyErr JValue) (s : String) (e : PyErr),
        parsePipeline jsonF s = Except.error e → caught e = true →
        predictParse jsonF s = Except.ok (0, 0)) ∧
    ((jsonLoads (stripFence c10Response)).bind
        (fun j => dictGet j "statement_is_true")).bind pyInt = Except.ok 1 ∧
    parsePipeline jsonLoads c10Response = Except.error PyErr.keyError ∧
    predictParse jsonLoads c10Response = Except.ok (0, 0) := by
  refine ⟨?_, rfl, rfl, rfl⟩
  intro jsonF s e h hc
  simp [predictParse, h, hc]

/-- Witness for the first conjunct of the C10 theorem at the malformed
response `"garbage"`. -/
theorem predictParse_default_is_all_or_nothing_witness :
    predictParse jsonLoads "garbage" = Except.ok (0, 0) :=
  predictParse_default_is_all_or_nothing.1 jsonLoads "garbage"
    PyErr.jsonDecodeError rfl rfl

/-! ### C5: fence stripping -/

/-- C5: the response is sliced if and only if it begins with the JSON
code-fence marker.  First conjunct: without the marker the response is
parsed as-is.  Second conjunct: with the marker (and enough characters),
the response decomposes as the 7-character marker, then exactly the text
handed to the JSON parser, then a 4-character tail — i.e. the slice
`response_str[7:-4]` removes the first 7 and last 4 characters.  Third
conjunct: on the spec's fenced example around
`{"statement_is_true": 1, "statement_topic": 3}`, `predict`'s parse step
returns `(1, 3)`. -/
theorem predictParse_fence_stripping :
    (∀ s : String, pyStartsWith s "```json" = false → stripFence s = s) ∧
    (∀ s : String, pyStartsWith s "```json" = true → 11 ≤ s.data.length →
        s.data =
          ("```json").data ++ (stripFence s).data ++ s.data.drop (s.data.length - 4) ∧
        (s.data.drop (s.data.length - 4)).length = 4) ∧
    predictParse jsonLoads c5Response = Except.ok (1, 3) := by
  refine ⟨?_, ?_, rfl⟩
  · intro s h
    simp [stripFence, h]
  · intro s h hlen
    have hpre : ("```json").data <+: s.data :=
      List.isPrefixOf_iff_prefix.mp (by simpa [pyStartsWith] using h)
    obtain ⟨t, ht⟩ := hpre
    have h7 : ("```json").data.length = 7 := rfl
    have hslen : s.data.length = 7 + t.length := by
      rw [← ht, List.length_append, h7]
    have ht4 : 4 ≤ t.length := by omega
    have hl : s.data.length - 4 = ("```json").data.length + (t.length - 4) := by
      rw [h7]; omega
    have hsf : (stripFence s).data = t.take (t.length - 4) := by
      unfold stripFence
      rw [if_pos h]
      show (s.data.take (s.data.length - 4)).drop 7 = t.take (t.length - 4)
      rw [hl, ← ht, List.take_append, ← h7, List.drop_left]
    have hdrop : s.data.drop (s.data.length - 4) = t.drop (t.length - 4) := by
      conv_lhs => rw [hl, ← ht, List.drop_append]
    constructor
    · rw [hsf, hdrop, ← ht, List.append_assoc, List.take_append_drop]
    · rw [hdrop, List.length_drop]; omega

/-- Witness for the C5 theorem: the fence-case decomposition applied at the
concrete fenced example response. -/
theorem predictParse_fence_stripping_witness :
    c5Response.data =
      ("```json").data ++ (stripFence c5Response).data ++
        c5Response.data.drop (c5Response.data.length - 4) ∧
    (c5Response.data.drop (c5Response.data.length - 4)).length = 4 :=
  predictParse_fence_stripping.2.1 c5Response rfl (by decide)

/-! ### C7: retrieval parameters and context assembly -/

/-- Separator-prefixed concatenation, the loop invariant shape of
`String.intercalate.go`. -/
def sepConcat (sep : String) : List String → String
  | [] => ""
  | a :: as => sep ++ a ++ sepConcat sep as

theorem intercalate_go_eq (sep : String) (l : List String) :
    ∀ acc : String, String.intercalate.go acc sep l = acc ++ sepConcat sep l := by
  induction l with
  | nil => intro acc; simp [String.intercalate.go, sepConcat]
  | cons a as ih =>
    intro acc
    simp [String.intercalate.go, sepConcat, ih, String.append_assoc]

theorem pyJoin_cons_eq (sep : String) :
    ∀ (as : List String) (a : String), pyJoin sep (a :: as) = a ++ sepConcat sep as := by
  intro as
  induction as with
  | nil => intro a; simp [pyJoin, sepConcat]
  | cons b bs ih =>
    intro a
    simp [pyJoin, sepConcat, ih b, String.append_assoc]

/-- Python's `sep.join` agrees with Lean's `String.intercalate`. -/
theorem pyJoin_eq_intercalate (sep : String) (l : List String) :
    pyJoin sep l = String.intercalate sep l := by
  cases l with
  | nil => rfl
  | cons a as =>
    show pyJoin sep (a :: as) = String.intercalate.go a sep as
    rw [pyJoin_cons_eq, intercalate_go_eq]

/-- C7: the retrieval step of `predict` (`model.py:89-96`) queries the
vector store with `search_type="mmr"`, a final selection size `k = 5` and a
candidate pool `fetch_k = 20`, and the context block is the retrieved
chunks' texts joined in retrieval order with a blank line (`"\n\n"`)
between consecutive chunks. -/
theorem predict_retrieval_parameters :
    predictRetriever.search_type = "mmr" ∧ predictRetriever.k = 5 ∧
    predictRetriever.fetch_k = 20 ∧
    ∀ (vectorStore : RetrieverConfig → String → List Doc) (statement : String),
      predictContext vectorStore statement =
        String.intercalate "\n\n"
          ((vectorStore predictRetriever statement).map Doc.page_content) := by
  refine ⟨rfl, rfl, rfl, ?_⟩
  intro vectorStore statement
  exact pyJoin_eq_intercalate "\n\n" _

/-! ### Helper lemmas about the indexing pipeline -/

/-- Every chunk emitted for one folder carries that folder's name as
`topic_name` and the topic map's value for that name as `topic_id`. -/
theorem mem_processFolder1 (splitter : String → List String) (tm : TopicMap)
    (folder : Folder) (c : Chunk) (h : c ∈ processFolder1 splitter tm folder) :
    List.lookup folder.name tm = some c.topic_id ∧ c.topic_name = folder.name := by
  unfold processFolder1 at h
  cases hl : List.lookup folder.name tm with
  | none => rw [hl] at h; simp at h
  | some topic_id =>
    rw [hl] at h
    simp only [] at h
    rw [List.mem_flatMap] at h
    obtain ⟨md, hmd, hc⟩ := h
    cases hcontent : md.content with
    | none => rw [hcontent] at hc; simp at hc
    | some content =>
      rw [hcontent] at hc
      simp only [] at hc
      rw [List.mem_map] at hc
      obtain ⟨chunk, hchunk, hceq⟩ := hc
      cases hceq
      refine ⟨?_, rfl⟩
      simp [hl]

/-- Every chunk in the collected `all_docs` has its `topic_name` bound to
its `topic_id` by the topic map. -/
theorem mem_buildDocs1 (splitter : String → List String) (tm : TopicMap)
    (folders : List Folder) (c : Chunk) (h : c ∈ buildDocs1 splitter tm folders) :
    List.lookup c.topic_name tm = some c.topic_id := by
  unfold buildDocs1 at h
  rw [List.mem_flatMap] at h
  obtain ⟨folder, hfolder, hc⟩ := h
  have hf := mem_processFolder1 splitter tm folder c hc
  rw [hf.2, hf.1]

/-- The two indexing scripts translate to definitionally equal programs. -/
theorem run2_eq_run1 : run2 = run1 := rfl

/-- On either fatal halt (missing topic map, empty corpus) the storage
location holds no index. -/
theorem run1_fatal_dbState_none (splitter : String → List String)
    (inp : IndexInput)
    (h : (run1 splitter inp).outcome = RunOutcome.missingTopicMap ∨
      (run1 splitter inp).outcome = RunOutcome.emptyCorpus) :
    (run1 splitter inp).dbState = none := by
  unfold run1 at h ⊢
  cases htm : inp.topicsJson with
  | none => rfl
  | some tm =>
    rw [htm] at h
    simp only [] at h ⊢
    by_cases he : (buildDocs1 splitter tm inp.folders).isEmpty
    · rw [if_pos he]
    · rw [if_neg he] at h
      rcases h with h | h <;> simp at h

/-! ### C2: storage state on the empty-corpus halt -/

def c2Splitter : String → List String := fun s => [s]

/-- A prior index present at the storage location before the failing run. -/
def c2Prior : List Chunk :=
  [{ page_content := "stale", source_file := "stale.md",
     topic_name := "Stale", topic_id := 4 }]

/-- An empty-corpus run over a storage location that held a prior index:
the topic map exists but no folder is on disk. -/
def c2Input : IndexInput :=
  { priorDb := some c2Prior, topicsJson := some [("Cardiology", 1)],
    folders := [] }

/-- C2 (counterexample): the claim states that on the empty-corpus halt the
state of the storage location is unchanged by the run.  It is not: the
cleanup at `1_indexing.py:27-29` has already removed the prior index before
the topic folders are even enumerated, so a run that starts with an index
at the storage location and halts on the empty-corpus check leaves the
location without an index — a changed state. -/
theorem run1_empty_corpus_storage_changed :
    (run1 c2Splitter c2Input).outcome = RunOutcome.emptyCorpus ∧
    c2Input.priorDb = some c2Prior ∧
    (run1 c2Splitter c2Input).dbState = none ∧
    (run1 c2Splitter c2Input).dbState ≠ c2Input.priorDb :=
  ⟨rfl, rfl, rfl, fun hcontra => Option.noConfusion hcontra⟩

/-- C2 (amended): if, after processing all folders, the chunk collection is
empty, both indexing scripts halt with the empty-corpus outcome before
attempting to write an index, and no index exists at the storage location
afterwards — but the location is not untouched: any prior index was already
removed by the initial cleanup, so the error path leaves it empty rather
than unchanged. -/
theorem run_empty_corpus_halts_without_index :
    ∀ (splitter : String → List String) (inp : IndexInput) (tm : TopicMap),
      inp.topicsJson = some tm →
      buildDocs1 splitter tm inp.folders = [] →
      (run1 splitter inp).outcome = RunOutcome.emptyCorpus ∧
      (run1 splitter inp).dbState = none ∧
      (run2 splitter inp).outcome = RunOutcome.emptyCorpus ∧
      (run2 splitter inp).dbState = none := by
  intro splitter inp tm htm hdocs
  simp only [run2_eq_run1]
  simp [run1, htm, hdocs]

def c2wSplitter : String → List String := fun s => [s]

/-- A run whose only folder on disk is absent from the topic map, so zero
chunks are produced. -/
def c2wInput : IndexInput :=
  { priorDb := none, topicsJson := some [("Cardiology", 1)],
    folders := [{ name := "Unmapped", files := [] }] }

/-- Witness for the amended C2 theorem at a concrete empty-corpus run. -/
theorem run_empty_corpus_halts_without_index_witness :
    (run1 c2wSplitter c2wInput).outcome = RunOutcome.emptyCorpus ∧
    (run1 c2wSplitter c2wInput).dbState = none ∧
    (run2 c2wSplitter c2wInput).outcome = RunOutcome.emptyCorpus ∧
    (run2 c2wSplitter c2wInput).dbState = none :=
  run_empty_corpus_halts_without_index c2wSplitter c2wInput
    [("Cardiology", 1)] rfl rfl

/-! ### C4: topic metadata invariant -/

/-- C4: for every chunk written by an indexing run, `topic_id` is the Topic
Map's value for its `topic_name` (hence every recorded `topic_name` is a
key of the map at index-build time), and no chunk carries the name of a
folder that is not a key of the map — such folders are skipped producing
zero chunks (`1_indexing.py:48-83`). -/
theorem run_chunk_topic_metadata_invariant :
    ∀ (splitter : String → List String) (inp : IndexInput) (tm : TopicMap)
      (docs : List Chunk) (c : Chunk) (fname : String),
      inp.topicsJson = some tm →
      (run1 splitter inp).dbState = some docs →
      c ∈ docs →
      List.lookup c.topic_name tm = some c.topic_id ∧
      (List.lookup fname tm = none → c.topic_name ≠ fname) := by
  intro splitter inp tm docs c fname htm hdb hmem
  have hdocs : docs = buildDocs1 splitter tm inp.folders := by
    unfold run1 at hdb
    rw [htm] at hdb
    simp only [] at hdb
    by_cases he : (buildDocs1 splitter tm inp.folders).isEmpty
    · rw [if_pos he] at hdb
      exact absurd hdb (by simp)
    · rw [if_neg he] at hdb
      simpa using hdb.symm
  subst hdocs
  have h1 := mem_buildDocs1 splitter tm inp.folders c hmem
  refine ⟨h1, fun hn heq => ?_⟩
  rw [heq, hn] at h1
  exact Option.noConfusion h1

def c4Splitter : String → List String := fun s => [s]

def c4TopicMap : TopicMap := [("Cardiology", 7)]

def c4Input : IndexInput :=
  { priorDb := none, topicsJson := some c4TopicMap,
    folders := [{ name := "Cardiology",
                  files := [{ name := "notes.md", content := some "heart care" }] }] }

def c4Chunk : Chunk :=
  { page_content := "heart care", source_file := "notes.md",
    topic_name := "Cardiology", topic_id := 7 }

/-- Witness for the C4 theorem at a concrete one-folder run. -/
theorem run_chunk_topic_metadata_invariant_witness :
    List.lookup c4Chunk.topic_name c4TopicMap = some c4Chunk.topic_id ∧
    c4Chunk.topic_name ≠ "Unlisted" := by
  have h := run_chunk_topic_metadata_invariant c4Splitter c4Input c4TopicMap
    [c4Chunk] c4Chunk "Unlisted" rfl (by rfl) (List.mem_singleton.mpr rfl)
  exact ⟨h.1, h.2 rfl⟩

/-! ### C6: the two indexing scripts are equivalent -/

/-- C6: on every identical input state (same topic map, same folder tree,
same splitter), the embeddings of `1_indexing.py` and
`2_chunking_embedding_ingestion.py` produce identical results: the same
chunk records in the same order written to the index, and the same halt
outcome under the same conditions.  Their observable differences are
confined to console output, which is not part of the result state. -/
theorem indexing_scripts_equivalent :
    ∀ (splitter : String → List String) (inp : IndexInput),
      run1 splitter inp = run2 splitter inp :=
  fun _ _ => rfl

/-! ### C8: cleanup precedes every fatal halt -/

/-- C8: the recursive destruction of the prior index (`1_indexing.py:27-29`,
`2_chunking_embedding_ingestion.py:32-34`) happens before the Topic Map
file is opened and before any document is read, so on every fatal halt —
missing topic map or zero chunks produced — the storage location already
holds no index, whatever index previously existed there. -/
theorem cleanup_precedes_fatal_halt :
    ∀ (splitter : String → List String) (inp : IndexInput) (prior : List Chunk),
      inp.priorDb = some prior →
      (((run1 splitter inp).outcome = RunOutcome.missingTopicMap ∨
          (run1 splitter inp).outcome = RunOutcome.emptyCorpus) →
        (run1 splitter inp).dbState = none) ∧
      (((run2 splitter inp).outcome = RunOutcome.missingTopicMap ∨
          (run2 splitter inp).outcome = RunOutcome.emptyCorpus) →
        (run2 splitter inp).dbState = none) := by
  intro splitter inp prior hp
  constructor
  · exact run1_fatal_dbState_none splitter inp
  · rw [run2_eq_run1]
    exact run1_fatal_dbState_none splitter inp

def c8Splitter : String → List String := fun s => [s]

def c8Prior : List Chunk :=
  [{ page_content := "v1", source_file := "v1.md", topic_name := "T", topic_id := 1 }]

/-- A run that halts at the missing-topic-map guard while a prior index was
present at the storage location. -/
def c8Input : IndexInput :=
  { priorDb := some c8Prior, topicsJson := none, folders := [] }

/-- Witness for the C8 theorem at a concrete missing-topic-map run. -/
theorem cleanup_precedes_fatal_halt_witness :
    (run1 c8Splitter c8Input).dbState = none ∧
    (run2 c8Splitter c8Input).dbState = none := by
  have h := cleanup_precedes_fatal_halt c8Splitter c8Input c8Prior rfl
  exact ⟨h.1 (Or.inl rfl), h.2 (Or.inl rfl)⟩
